import Mathlib

/-
Verification of the traversal-and-extraction engine of a job-listing
scraper (src/scraper-v1.py) against its natural-language specification.

The Python source is shallowly embedded below.  Interactions with the
live rendering surface (the browser page) are modelled as explicit
oracles: a list of poll responses for the scroll loop, sibling-lookup
functions for the listing iterator, and Except-valued lookup/click
operations for the pagination controller.  Machine strings are modelled
as List Char; Python str.strip and the concrete regular expressions of
extract_qualifications_general are implemented directly over List Char,
following the semantics of the Python re module for those exact
patterns (leftmost match, greedy and lazy quantifiers, IGNORECASE on
ASCII letters, DOTALL).
-/

/- ------------------------------------------------------------------ -/
/- StabilizationDetector: scroll_description_container, lines 120-148 -/
/- ------------------------------------------------------------------ -/

/-- Per-poll update of the stagnation counter, from lines 141-144 of
scroll_description_container: the counter is incremented when the newly
read height equals the previous one and reset to 0 otherwise. -/
def stagnantUpdate (last_height new_height counter : Nat) : Nat :=
  if new_height = last_height then counter + 1 else 0

/-- Shallow embedding of the while-loop of scroll_description_container
(lines 135-148).  Each element of polls is one loop iteration's pair of
page reads (new_height, scroll_top); the initial read of scrollHeight
(line 132) is the last_height argument and the counter starts at 0.
The loop body scrolls by 200, waits, reads height and offset, updates
the counter, and breaks when the counter reaches 3 or when
scroll_top + 200 is at least new_height.  The embedding returns the
height observed at the breaking poll together with the number of polls
performed, or none when the oracle list is exhausted before the
termination policy fires (the Python loop would keep polling). -/
def scroll_description_container (last_height counter : Nat) :
    List (Nat × Nat) → Option (Nat × Nat)
  | [] => none
  | (new_height, scroll_top) :: rest =>
    let c := stagnantUpdate last_height new_height counter
    if 3 ≤ c ∨ new_height ≤ scroll_top + 200 then
      some (new_height, 1)
    else
      match scroll_description_container new_height c rest with
      | some p => some (p.1, p.2 + 1)
      | none => none

/-- Entry point of the stabilization run: the first scrollHeight read
(line 132) seeds last_height and no_change_counter starts at 0
(line 133). -/
def stabilizeRun (initial : Nat) (polls : List (Nat × Nat)) : Option (Nat × Nat) :=
  scroll_description_container initial 0 polls

/-- Helper: a terminating stabilization run performs at least one poll. -/
theorem scroll_pollCount_pos (lh c : Nat) (polls : List (Nat × Nat))
    (h k : Nat) (he : scroll_description_container lh c polls = some (h, k)) :
    1 ≤ k := by
  induction polls generalizing lh c h k with
  | nil => simp [scroll_description_container] at he
  | cons p rest ih =>
    obtain ⟨nh, st⟩ := p
    simp only [scroll_description_container] at he
    by_cases hc : 3 ≤ stagnantUpdate lh nh c ∨ nh ≤ st + 200
    · simp [hc] at he
      omega
    · simp [hc] at he
      cases hr : scroll_description_container nh (stagnantUpdate lh nh c) rest with
      | none => rw [hr] at he; simp at he
      | some p' =>
        rw [hr] at he
        simp at he
        omega

/-- C2: the stabilization operation returns the committed content
height: when the run terminates at poll k, the height it returns is
exactly the height observed at poll k, the final height read when the
termination policy fires. -/
theorem stabilize_returns_committed_height (lh c : Nat)
    (polls : List (Nat × Nat)) (h k : Nat)
    (he : scroll_description_container lh c polls = some (h, k)) :
    1 ≤ k ∧ k ≤ polls.length ∧ ∃ t, polls.get? (k - 1) = some (h, t) := by
  induction polls generalizing lh c h k with
  | nil => simp [scroll_description_container] at he
  | cons p rest ih =>
    obtain ⟨nh, st⟩ := p
    simp only [scroll_description_container] at he
    by_cases hc : 3 ≤ stagnantUpdate lh nh c ∨ nh ≤ st + 200
    · simp [hc] at he
      obtain ⟨h1, h2⟩ := he
      subst h1; subst h2
      exact ⟨le_refl 1, by simp, st, rfl⟩
    · simp [hc] at he
      cases hr : scroll_description_container nh (stagnantUpdate lh nh c) rest with
      | none => rw [hr] at he; simp at he
      | some p' =>
        rw [hr] at he
        simp at he
        obtain ⟨h1, h2⟩ := he
        obtain ⟨hk1, hk2, t, ht⟩ := ih nh (stagnantUpdate lh nh c) p'.1 p'.2 hr
        refine ⟨by omega, by simp; omega, t, ?_⟩
        have hkm : k - 1 = (p'.2 - 1) + 1 := by omega
        rw [hkm]
        simpa [h1] using ht

/-- C2 witness: on the specification's example height sequence
[500, 700, 900, 900, 900, 900] (initial read 500, then five polls, all
with small scroll offsets) the run terminates at poll 5 and the
committed height 900 is the height observed at that fifth poll. -/
theorem stabilize_returns_committed_height_witness :
    1 ≤ 5 ∧ 5 ≤ ([((700 : Nat), (0 : Nat)), (900, 0), (900, 0), (900, 0), (900, 0)]).length ∧
      ∃ t, ([((700 : Nat), (0 : Nat)), (900, 0), (900, 0), (900, 0), (900, 0)]).get? (5 - 1) = some (900, t) :=
  stabilize_returns_committed_height 500 0
    [(700, 0), (900, 0), (900, 0), (900, 0), (900, 0)] 900 5 (by decide)

/-- C5: the stabilization loop stops at the current poll exactly when
the updated stagnation counter has reached 3 or the scroll offset plus
the 200-unit increment reaches the observed height; moreover, on the
spec's example sequence [500,700,900,900,900,900] it stops after the
third repeated 900 (poll 5) with height 900, and with offset 850,
increment 200 and height 900 it stops after a single poll. -/
theorem stabilize_termination_policy :
    (∀ lh c nh st rest,
      scroll_description_container lh c ((nh, st) :: rest) = some (nh, 1)
        ↔ (3 ≤ stagnantUpdate lh nh c ∨ nh ≤ st + 200))
    ∧ stabilizeRun 500 [(700, 0), (900, 0), (900, 0), (900, 0), (900, 0)] = some (900, 5)
    ∧ stabilizeRun 900 [(900, 850)] = some (900, 1) := by
  refine ⟨?_, by decide, by decide⟩
  intro lh c nh st rest
  constructor
  · intro he
    by_contra hc
    simp only [scroll_description_container, if_neg hc] at he
    cases hr : scroll_description_container nh (stagnantUpdate lh nh c) rest with
    | none => rw [hr] at he; simp at he
    | some p' =>
      rw [hr] at he
      simp at he
      have := scroll_pollCount_pos nh (stagnantUpdate lh nh c) rest p'.1 p'.2 hr
      omega
  · intro hc
    simp [scroll_description_container, hc]

/-- C6 counterexample: the claim says the stagnation counter is
incremented whenever there is no growth in height, including when the
height decreases.  In the code a decrease resets the counter: with
previous height 700, new height 500 and counter 1, the update yields 0,
not the increment 2 the claim requires. -/
theorem stagnant_decrease_resets :
    stagnantUpdate 700 500 1 = 0 ∧ stagnantUpdate 700 500 1 ≠ 1 + 1 := by
  decide

/-- C6 amended: across every poll of a stabilization run, the stagnation
counter (updated by stagnantUpdate, the per-poll update used inside
scroll_description_container) is incremented exactly when the height is
unchanged between polls, and resets to 0 exactly when the height
changes, whether it grows or decreases. -/
theorem stagnant_update_characterization (lh nh c : Nat) :
    (nh = lh → stagnantUpdate lh nh c = c + 1)
    ∧ (nh ≠ lh → stagnantUpdate lh nh c = 0) := by
  constructor
  · intro h; simp [stagnantUpdate, h]
  · intro h; simp [stagnantUpdate, h]

/-- C6 amended witness: with unchanged height 900 the counter 1 becomes
2; with a height change from 800 to 300 the counter resets to 0. -/
theorem stagnant_update_characterization_witness :
    stagnantUpdate 900 900 1 = 1 + 1 ∧ stagnantUpdate 800 300 1 = 0 :=
  ⟨(stagnant_update_characterization 900 900 1).1 rfl,
   (stagnant_update_characterization 800 300 1).2 (by decide)⟩

/- ------------------------------------------------------------------ -/
/- ExtractionPipeline: extract_qualifications_general, lines 173-220  -/
/- ------------------------------------------------------------------ -/

/-- Python whitespace class backslash-s over ASCII: space, tab,
newline, carriage return, vertical tab, form feed. -/
def isSpaceChar (c : Char) : Bool :=
  c == ' ' || c == '\t' || c == '\n' || c == '\r' || c == '\x0b' || c == '\x0c'

/-- Python str.strip with no argument: remove whitespace from both
ends. -/
def stripWS (l : List Char) : List Char :=
  ((l.dropWhile isSpaceChar).reverse.dropWhile isSpaceChar).reverse

/-- ASCII lower-casing, as performed by re.IGNORECASE on the ASCII
letters occurring in the patterns. -/
def lowerChar (c : Char) : Char :=
  if 'A' ≤ c ∧ c ≤ 'Z' then Char.ofNat (c.toNat + 32) else c

/-- Case-insensitive character comparison. -/
def ciEq (a b : Char) : Bool := lowerChar a == lowerChar b

/-- Does pat match case-insensitively at the head of text? -/
def matchesAt : List Char → List Char → Bool
  | [], _ => true
  | _ :: _, [] => false
  | p :: ps, t :: ts => ciEq p t && matchesAt ps ts

/-- Index of the leftmost case-insensitive occurrence of pat in text,
the position at which re.search with IGNORECASE anchors its match. -/
def findCI (pat : List Char) : List Char → Option Nat
  | [] => if matchesAt pat [] then some 0 else none
  | t :: ts =>
    if matchesAt pat (t :: ts) then some 0
    else (findCI pat ts).map (fun i => i + 1)

/-- Length of the maximal whitespace run at the head of l, what a
greedy backslash-s-star consumes. -/
def wsRun (l : List Char) : Nat := (l.takeWhile isSpaceChar).length

def minHeader : List Char := "Minimum Qualifications:".toList

def prefHeader : List Char := "Preferred Qualifications:".toList

def qualHeader : List Char := "Qualifications:".toList

def reqHeaderS : List Char := "Requirements:".toList

def reqHeader1 : List Char := "Requirement:".toList

/-- Lookahead test for the minimum-qualifications pattern: with the
lazy capture ending at position c, the trailing greedy whitespace can
consume j further characters (j at most the whitespace run at c) after
which the lookahead sees the Preferred Qualifications header or the
end of the text.  The dollar alternative also matches just before a
final newline, but a final newline is itself whitespace, so any run
reaching that position also reaches the very end; that case adds
nothing. -/
def canStop (text : List Char) (c : Nat) : Bool :=
  (List.range (wsRun (text.drop c) + 1)).any
    (fun j => c + j == text.length || matchesAt prefHeader (text.drop (c + j)))

/-- End position of the lazy capture: the regex engine grows the lazy
group one character at a time from q, succeeding at the first position
where the trailing whitespace plus lookahead can match. -/
def lazyEndFrom (text : List Char) : Nat → Nat → Nat
  | c, 0 => c
  | c, fuel + 1 => if canStop text c then c else lazyEndFrom text (c + 1) fuel

def lazyEnd (text : List Char) (q : Nat) : Nat :=
  lazyEndFrom text q (text.length + 1 - q)

/-- Group 1 of re.search of the pattern
Minimum Qualifications colon, backslash-s-star, lazy dot-star capture,
backslash-s-star, lookahead of (Preferred Qualifications colon or
dollar), with DOTALL and IGNORECASE (lines 189-192).  The leading
greedy whitespace after the header always commits to its maximal run
because the lazy capture can always extend to the end of the text
where dollar matches. -/
def minSearch (text : List Char) : Option (List Char) :=
  match findCI minHeader text with
  | none => none
  | some i =>
    let p := i + minHeader.length
    let q := p + wsRun (List.drop p text)
    let c := lazyEnd text q
    some ((List.drop q text).take (c - q))

/-- Group 1 of re.search of Preferred Qualifications colon,
backslash-s-star, greedy dot-star capture, with DOTALL and IGNORECASE
(lines 193-196): everything after the header and its following
whitespace, to the end of the text. -/
def prefSearch (text : List Char) : Option (List Char) :=
  (findCI prefHeader text).map (fun i =>
    let p := i + prefHeader.length
    List.drop (p + wsRun (List.drop p text)) text)

/-- Group 1 of re.search of Qualifications colon, backslash-s-star,
greedy dot-star capture (lines 207-210). -/
def genericSearch (text : List Char) : Option (List Char) :=
  (findCI qualHeader text).map (fun i =>
    let p := i + qualHeader.length
    List.drop (p + wsRun (List.drop p text)) text)

/-- Leftmost match of the header Requirement with optional greedy s
and a colon: at each position the engine first tries the plural
spelling, then the singular; the result is the match position and the
matched header length. -/
def findReq : List Char → Option (Nat × Nat)
  | [] => none
  | t :: ts =>
    if matchesAt reqHeaderS (t :: ts) then some (0, reqHeaderS.length)
    else if matchesAt reqHeader1 (t :: ts) then some (0, reqHeader1.length)
    else (findReq ts).map (fun pr => (pr.1 + 1, pr.2))

/-- Group 1 of re.search of Requirement, optional s, colon,
backslash-s-star, greedy dot-star capture (lines 214-217). -/
def reqSearch (text : List Char) : Option (List Char) :=
  (findReq text).map (fun pr =>
    let p := pr.1 + pr.2
    List.drop (p + wsRun (List.drop p text)) text)

/-- Lines 200-204: the combined string built from the stripped minimum
and preferred captures, each half introduced by its canonical header and
the empty half omitted. -/
def combineQuals (minimum_quals preferred_quals : List Char) : List Char :=
  (if minimum_quals ≠ [] then
      "Minimum Qualifications:\n".toList ++ minimum_quals ++ "\n\n".toList
    else [])
  ++ (if preferred_quals ≠ [] then
      "Preferred Qualifications:\n".toList ++ preferred_quals
    else [])

/-- Lines 206-220: the else branch taken when neither the minimum nor
the preferred pattern matched: generic Qualifications header, then
Requirement(s) header, then the empty string. -/
def fallbackQuals (text : List Char) : List Char :=
  match genericSearch text with
  | some g => stripWS g
  | none =>
    match reqSearch text with
    | some r => stripWS r
    | none => []

/-- Lines 189-220: the full extraction pipeline. -/
def extract_qualifications_general (text : List Char) : List Char :=
  let mm := minSearch text
  let pm := prefSearch text
  if mm.isSome || pm.isSome then
    stripWS (combineQuals (stripWS (mm.getD [])) (stripWS (pm.getD [])))
  else
    fallbackQuals text

/-- C3 counterexample: header matching does not tolerate interior
newlines.  The minimum-qualifications pattern spells the space between
the two header words as a literal space character, which DOTALL does
not alter, so the header with an interior newline is not recognized
while the single-space spelling is; the newline input is only picked
up by the later generic Qualifications fallback, which drops the
Minimum Qualifications label. -/
theorem header_newline_not_recognized :
    minSearch "Minimum\nQualifications: skills and stuff".toList = none
    ∧ minSearch "Minimum Qualifications: skills and stuff".toList
        = some "skills and stuff".toList
    ∧ extract_qualifications_general "Minimum\nQualifications: skills and stuff".toList
        = "skills and stuff".toList := by
  decide

/-- C3 amended: header matching is case-insensitive, but the interior
separator of a header phrase must be the literal single space of the
pattern: fully lower-case and fully upper-case spellings are
recognized, while a tab between the words is not (such inputs can only
reach the later fallback patterns). -/
theorem header_matching_case_insensitive_single_space :
    extract_qualifications_general
        "minimum qualifications: a\npreferred QUALIFICATIONS: b".toList
      = "Minimum Qualifications:\na\n\nPreferred Qualifications:\nb".toList
    ∧ extract_qualifications_general "MINIMUM QUALIFICATIONS: a".toList
      = "Minimum Qualifications:\na".toList
    ∧ minSearch "Minimum\tQualifications: x".toList = none := by
  decide

/-- C4 counterexample: on a text where the minimum-qualifications
header matches but both captures are empty, the pipeline returns the
empty string from step 1 instead of falling through: the fallback
chain would have produced a non-empty result on the same input. -/
theorem empty_captures_not_routed_to_fallback :
    extract_qualifications_general
        "Minimum Qualifications: Preferred Qualifications:".toList = []
    ∧ fallbackQuals "Minimum Qualifications: Preferred Qualifications:".toList
        = "Preferred Qualifications:".toList
    ∧ fallbackQuals "Minimum Qualifications: Preferred Qualifications:".toList ≠ [] := by
  decide

/-- C4 amended: the pipeline produces the concatenated
minimum/preferred result exactly when at least one of the two patterns
matches, regardless of whether the captures are empty: when a pattern
matches and both stripped captures are empty the result is the empty
string, not the fallback result; the generic and requirements
fallbacks are consulted only when neither pattern matches. -/
theorem step1_fires_on_match (t : List Char) :
    (((minSearch t).isSome = true ∨ (prefSearch t).isSome = true) →
      (stripWS ((minSearch t).getD []) = [] → stripWS ((prefSearch t).getD []) = [] →
        extract_qualifications_general t = [])
      ∧ extract_qualifications_general t
          = stripWS (combineQuals (stripWS ((minSearch t).getD []))
              (stripWS ((prefSearch t).getD []))))
    ∧ (minSearch t = none → prefSearch t = none →
        extract_qualifications_general t = fallbackQuals t) := by
  constructor
  · intro h
    have hb : ((minSearch t).isSome || (prefSearch t).isSome) = true := by
      rcases h with h | h <;> simp [h]
    constructor
    · intro h1 h2
      simp only [extract_qualifications_general, hb, if_true]
      rw [h1, h2]
      rfl
    · simp only [extract_qualifications_general, hb, if_true]
  · intro h1 h2
    simp [extract_qualifications_general, h1, h2]

/-- C4 amended witness: on a text with a matching minimum header and a
non-empty capture the pipeline indeed produces the stripped
concatenation. -/
theorem step1_fires_on_match_witness :
    extract_qualifications_general "Minimum Qualifications: abc".toList
      = stripWS (combineQuals
          (stripWS ((minSearch "Minimum Qualifications: abc".toList).getD []))
          (stripWS ((prefSearch "Minimum Qualifications: abc".toList).getD []))) :=
  ((step1_fires_on_match "Minimum Qualifications: abc".toList).1
    (Or.inl (by decide))).2

/- ------------------------------------------------------------------ -/
/- PaginationController: click_next_page, lines 222-265               -/
/- ------------------------------------------------------------------ -/

/-- Python int() applied to an already stripped string of ASCII
characters: an optional sign followed by a non-empty run of decimal
digits; anything else raises ValueError, modelled as the error case.
(Digit-group underscores accepted by CPython are not modelled; no
label in the claims contains one.) -/
def digitsToNat : List Char → Option Nat
  | [] => none
  | l =>
    if l.all (fun c => decide ('0' ≤ c) && decide (c ≤ '9')) then
      some (l.foldl (fun acc c => acc * 10 + (c.toNat - 48)) 0)
    else none

def pyInt (l : List Char) : Except Unit Int :=
  match l with
  | '+' :: rest =>
    match digitsToNat rest with
    | some n => .ok (Int.ofNat n)
    | none => .error ()
  | '-' :: rest =>
    match digitsToNat rest with
    | some n => .ok (-(Int.ofNat n))
    | none => .error ()
  | l' =>
    match digitsToNat l' with
    | some n => .ok (Int.ofNat n)
    | none => .error ()

/-- Python str() of an integer, used to build the has-text selector
for the next page number. -/
def intToChars (n : Int) : List Char := (toString n).toList

/-- Observable surface of one pagination attempt: the current-page
indicator lookup (query_selector of the aria-current button combined
with inner_text, none when the element is absent), button existence
lookup by label, and click activation.  Every operation may raise,
modelled by the error case. -/
structure PageSurface where
  queryIndicator : Except Unit (Option (List Char))
  queryButton : List Char → Except Unit Bool
  clickButton : List Char → Except Unit Unit

/-- Observable actions issued to the surface during click_next_page:
button-existence lookups and clicks, both carrying the button label. -/
inductive PAct
  | queried : List Char → PAct
  | clicked : List Char → PAct
deriving DecidableEq

/-- Lines 222-265: numbered pagination.  Reads the current-page
indicator; when present, parses its stripped text as an integer n and
looks for a button labeled n+1, clicking it when found; when absent,
falls back to the button labeled 2; any exception in lookup, parsing
or activation is caught by the surrounding try and yields False.  The
result pairs the returned Boolean with the trace of lookup and click
actions issued (a click that raises is recorded as issued before the
handler runs). -/
def click_next_page (s : PageSurface) : Bool × List PAct :=
  match s.queryIndicator with
  | .error _ => (false, [])
  | .ok (some txt) =>
    match pyInt (stripWS txt) with
    | .error _ => (false, [])
    | .ok current_page =>
      let lbl := intToChars (current_page + 1)
      match s.queryButton lbl with
      | .error _ => (false, [PAct.queried lbl])
      | .ok true =>
        match s.clickButton lbl with
        | .error _ => (false, [PAct.queried lbl, PAct.clicked lbl])
        | .ok _ => (true, [PAct.queried lbl, PAct.clicked lbl])
      | .ok false => (false, [PAct.queried lbl])
  | .ok none =>
    match s.queryButton ['2'] with
    | .error _ => (false, [PAct.queried ['2']])
    | .ok true =>
      match s.clickButton ['2'] with
      | .error _ => (false, [PAct.queried ['2'], PAct.clicked ['2']])
      | .ok _ => (true, [PAct.queried ['2'], PAct.clicked ['2']])
    | .ok false => (false, [PAct.queried ['2']])

/-- C8: pagination advance: with an indicator parsing as n and a
control labeled n+1 present and clickable, it clicks that control and
reports success; with no indicator it falls back to the control
labeled 2; when the looked-up control is absent it reports exhaustion
(false); and any exception during indicator lookup, button lookup or
activation yields false rather than raising. -/
theorem pagination_advance_behavior (s : PageSurface) :
    (∀ txt n, s.queryIndicator = .ok (some txt) → pyInt (stripWS txt) = .ok n →
      s.queryButton (intToChars (n + 1)) = .ok true →
      s.clickButton (intToChars (n + 1)) = .ok () →
      click_next_page s
        = (true, [PAct.queried (intToChars (n + 1)), PAct.clicked (intToChars (n + 1))]))
    ∧ (∀ txt n, s.queryIndicator = .ok (some txt) → pyInt (stripWS txt) = .ok n →
      s.queryButton (intToChars (n + 1)) = .ok false →
      click_next_page s = (false, [PAct.queried (intToChars (n + 1))]))
    ∧ (s.queryIndicator = .ok none → s.queryButton ['2'] = .ok true →
      s.clickButton ['2'] = .ok () →
      click_next_page s = (true, [PAct.queried ['2'], PAct.clicked ['2']]))
    ∧ (s.queryIndicator = .ok none → s.queryButton ['2'] = .ok false →
      click_next_page s = (false, [PAct.queried ['2']]))
    ∧ (∀ e, s.queryIndicator = .error e → click_next_page s = (false, []))
    ∧ (∀ txt n e, s.queryIndicator = .ok (some txt) → pyInt (stripWS txt) = .ok n →
      s.queryButton (intToChars (n + 1)) = .error e →
      (click_next_page s).1 = false)
    ∧ (∀ txt n e, s.queryIndicator = .ok (some txt) → pyInt (stripWS txt) = .ok n →
      s.queryButton (intToChars (n + 1)) = .ok true →
      s.clickButton (intToChars (n + 1)) = .error e →
      (click_next_page s).1 = false) := by
  refine ⟨?_, ?_, ?_, ?_, ?_, ?_, ?_⟩
  · intro txt n h1 h2 h3 h4
    simp [click_next_page, h1, h2, h3, h4]
  · intro txt n h1 h2 h3
    simp [click_next_page, h1, h2, h3]
  · intro h1 h2 h3
    simp [click_next_page, h1, h2, h3]
  · intro h1 h2
    simp [click_next_page, h1, h2]
  · intro e h1
    simp [click_next_page, h1]
  · intro txt n e h1 h2 h3
    simp [click_next_page, h1, h2, h3]
  · intro txt n e h1 h2 h3 h4
    simp [click_next_page, h1, h2, h3, h4]

/-- C8 witness: the spec's example surface: indicator labeled 3, a
clickable button labeled 4; advance clicks it and reports success. -/
theorem pagination_advance_behavior_witness :
    click_next_page
        ⟨.ok (some ['3']), fun _ => .ok true, fun _ => .ok ()⟩
      = (true, [PAct.queried ['4'], PAct.clicked ['4']]) :=
  (pagination_advance_behavior
      ⟨.ok (some ['3']), fun _ => .ok true, fun _ => .ok ()⟩).1
    ['3'] 3 rfl rfl rfl rfl

/-- C10: when the current-page indicator exists but its label does not
parse as an integer, the ValueError from int() is caught by the
surrounding handler and advance reports false without looking up or
clicking either the numbered control or the fallback control: the
action trace is empty. -/
theorem pagination_unparsable_indicator (s : PageSurface) (txt : List Char)
    (h1 : s.queryIndicator = .ok (some txt))
    (h2 : pyInt (stripWS txt) = .error ()) :
    click_next_page s = (false, []) := by
  simp [click_next_page, h1, h2]

/-- C10 witness: a surface whose indicator reads "next" (and on which
every button lookup would report an existing, clickable button) yields
false with no button lookup and no click. -/
theorem pagination_unparsable_indicator_witness :
    click_next_page
        ⟨.ok (some "next".toList), fun _ => .ok true, fun _ => .ok ()⟩
      = (false, []) :=
  pagination_unparsable_indicator
    ⟨.ok (some "next".toList), fun _ => .ok true, fun _ => .ok ()⟩
    "next".toList rfl rfl

/- ------------------------------------------------------------------ -/
/- ListingIterator: inner-loop iteration logic, lines 337-355         -/
/- ------------------------------------------------------------------ -/

/-- Shallow embedding of the listing-iteration logic of the inner loop
(lines 337-355), abstracted from the per-listing processing.  Handles
are the values yielded to the body; first is the initial
query_selector over the container (line 340); sib is the
nextElementSibling lookup (lines 345-346); resib is the same lookup
as re-issued after the single 300-unit scroll of the container and its
settle wait (lines 349-352).  The function returns the handles yielded
in order together with the number of scroll-and-requery sequences
performed; fuel bounds the number of loop iterations so the embedding
is total (the loop exits by itself on sibling absence). -/
def listingLoop (first : Option Nat) (sib resib : Nat → Option Nat) :
    Option Nat → Nat → List Nat × Nat
  | _, 0 => ([], 0)
  | none, fuel + 1 =>
    match first with
    | none => ([], 0)
    | some l =>
      let r := listingLoop first sib resib (some l) fuel
      (l :: r.1, r.2)
  | some last, fuel + 1 =>
    match sib last with
    | some l =>
      let r := listingLoop first sib resib (some l) fuel
      (l :: r.1, r.2)
    | none =>
      match resib last with
      | none => ([], 1)
      | some l =>
        let r := listingLoop first sib resib (some l) fuel
        (l :: r.1, r.2 + 1)

/-- The static page fixture of the claim: a container holding exactly
k pre-rendered sibling listings, numbered in DOM order, on which the
one scroll produces no new sibling: the first query returns listing 0
when k is positive, and the sibling of listing i is listing i+1 when
that index is still below k, before and after scrolling. -/
def sibFixture (k : Nat) : Nat → Option Nat :=
  fun i => if i + 1 < k then some (i + 1) else none

def firstFixture (k : Nat) : Option Nat :=
  if 0 < k then some 0 else none

/-- Helper: from a yielded listing i with d further siblings ahead, the
loop yields exactly those d siblings and then performs the single
scroll-and-requery before exiting. -/
theorem listingLoop_fixture_aux (k : Nat) :
    ∀ d i, i + d + 1 = k →
      listingLoop (firstFixture k) (sibFixture k) (sibFixture k) (some i) (d + 1)
        = (List.range' (i + 1) d, 1) := by
  intro d
  induction d with
  | zero =>
    intro i hi
    have hnl : ¬ (i + 1 < k) := by omega
    have hs : sibFixture k i = none := by simp [sibFixture, hnl]
    simp [listingLoop, hs]
  | succ d ih =>
    intro i hi
    have hnl : i + 1 < k := by omega
    have hs : sibFixture k i = some (i + 1) := by simp [sibFixture, hnl]
    have hr := ih (i + 1) (by omega)
    conv_lhs => rw [listingLoop]
    rw [hs]
    simp only [hr]
    simp [List.range'_succ]

/-- C7: on a page whose container holds exactly k pre-rendered sibling
listings (k positive) and where the single scroll renders nothing new,
the iteration yields exactly the k handles 0..k-1 in DOM order and
performs the scroll-and-requery sequence (one 300-unit scroll, one
settle wait, one sibling re-query, all in the same block of lines
348-352) exactly once, terminating when the re-query still finds no
sibling; with an empty container it yields nothing and never scrolls. -/
theorem listing_iteration_yields_all (k : Nat) (hk : 1 ≤ k) :
    listingLoop (firstFixture k) (sibFixture k) (sibFixture k) none (k + 1)
      = (List.range k, 1)
    ∧ listingLoop (firstFixture 0) (sibFixture 0) (sibFixture 0) none 1
      = ([], 0) := by
  constructor
  · have h0 : 0 < k := hk
    have hf : firstFixture k = some 0 := by simp [firstFixture, h0]
    obtain ⟨d, hd⟩ : ∃ d, k = d + 1 := ⟨k - 1, by omega⟩
    subst hd
    have ha := listingLoop_fixture_aux (d + 1) d 0 (by omega)
    rw [hf] at ha
    rw [listingLoop.eq_def]
    simp only [hf, ha]
    rw [List.range_eq_range']
    simp [List.range'_succ]
  · simp [listingLoop, firstFixture]

/-- C7 witness: the spec's example page of five pre-rendered listings:
the iteration yields the five handles in DOM order with exactly one
scroll-triggered re-query. -/
theorem listing_iteration_yields_all_witness :
    listingLoop (firstFixture 5) (sibFixture 5) (sibFixture 5) none 6
      = (List.range 5, 1)
    ∧ listingLoop (firstFixture 0) (sibFixture 0) (sibFixture 0) none 1
      = ([], 0) :=
  listing_iteration_yields_all 5 (by decide)

/- ------------------------------------------------------------------ -/
/- ScrapeOrchestrator per-listing processing, lines 357-414           -/
/- ------------------------------------------------------------------ -/

/-- Metadata mapping for one job, field name to field text, as
returned under the job_details key of the AgentQL query. -/
abbrev JobMeta := List (List Char × List Char)

/-- Result mapping of one query_data call (line 393).  The
job_details field holds the metadata mapping when the response carries
a truthy job_details value, and none when the key is missing or its
value is falsy (line 404 tests Python truthiness of the get). -/
structure MetaResponse where
  job_details : Option JobMeta
deriving DecidableEq

/-- Outcome of one query_data attempt: a response, or a raised
exception. -/
inductive QueryOutcome
  | ok : MetaResponse → QueryOutcome
  | raise : QueryOutcome
deriving DecidableEq

/-- The record assembled in lines 403-412 and handed to
push_to_airtable: the metadata mapping (or the empty mapping when
job_details was falsy), the scraped description, and the extracted
qualifications. -/
structure EmittedJob where
  meta : Option JobMeta
  job_description : List Char
  qualifications : List Char
deriving DecidableEq

/-- Lines 403-413 applied to the response in scope after the retry
loop. -/
def mkEmitted (resp : MetaResponse) (desc : List Char) : EmittedJob :=
  { meta := resp.job_details
    job_description := desc
    qualifications := extract_qualifications_general desc }

/-- Observable outcome of processing one listing in the inner loop:
the listing is skipped (continue, no record), a single record is
assembled and pushed to the sink, or an unhandled exception propagates
out of main. -/
inductive LStep
  | skip : LStep
  | emit : EmittedJob → LStep
  | crash : LStep
deriving DecidableEq

/-- Lines 357-413: processing of one clicked listing.  prev is the
binding of the job_metadata_response variable left over from earlier
listings of the run (none when no query_data call has succeeded yet,
since the variable is local to main and starts unbound).  cardFound
and titleFound are false when the corresponding wait_for_selector
returns nothing or raises, both of which continue to the next listing
(lines 368-383).  a1 a2 a3 are the outcomes of the up-to-three
query_data attempts of the retry loop (lines 389-401): a success
breaks out with the variable freshly bound; after the third failure
the continue statement on line 400 re-tests the loop condition
(retry_count < max_retries is now false), so control falls OUT of the
retry loop to line 403, where the variable is read: if it is still
unbound this raises UnboundLocalError (crash), otherwise the stale
previous response is used and a record is assembled and pushed. -/
def processListing (prev : Option MetaResponse) (cardFound titleFound : Bool)
    (a1 a2 a3 : QueryOutcome) (desc : List Char) : LStep :=
  if cardFound = false then LStep.skip
  else if titleFound = false then LStep.skip
  else
    match a1 with
    | .ok r => LStep.emit (mkEmitted r desc)
    | .raise =>
      match a2 with
      | .ok r => LStep.emit (mkEmitted r desc)
      | .raise =>
        match a3 with
        | .ok r => LStep.emit (mkEmitted r desc)
        | .raise =>
          match prev with
          | some r => LStep.emit (mkEmitted r desc)
          | none => LStep.crash

/-- C1: the claim says a listing whose metadata query fails on all
three attempts, or whose metadata is absent after the retries, is
skipped with no record and no exception.  The code does neither: when
all three attempts raise and no earlier query ever succeeded, the
fall-through read of the unbound response variable raises
UnboundLocalError past the retry boundary; when an earlier response is
still bound, a record built from that stale response is emitted for
the current listing; and when the query succeeds with a falsy
job_details, a record with empty metadata is still emitted.  None of
these paths is a skip. -/
theorem retry_exhaustion_not_skipped :
    (∀ d, processListing none true true .raise .raise .raise d = LStep.crash)
    ∧ (∀ r d, processListing (some r) true true .raise .raise .raise d
        = LStep.emit (mkEmitted r d)
      ∧ processListing (some r) true true .raise .raise .raise d ≠ LStep.skip)
    ∧ (∀ p d, processListing p true true (.ok ⟨none⟩) .raise .raise d
        = LStep.emit ⟨none, d, extract_qualifications_general d⟩) := by
  refine ⟨?_, ?_, ?_⟩
  · intro d
    rfl
  · intro r d
    exact ⟨rfl, fun h => LStep.noConfusion h⟩
  · intro p d
    rfl

/- ------------------------------------------------------------------ -/
/- Record sink push: push_to_airtable, lines 94-118                   -/
/- ------------------------------------------------------------------ -/

/-- Scalar value of a record field as seen by the Python code: a
string, a non-string value (numbers are the value of interest for the
salary field), or None (also standing for an absent key, since
job.get returns None for those). -/
inductive PyVal
  | pstr : List Char → PyVal
  | pint : Int → PyVal
  | pnone : PyVal
deriving DecidableEq

/-- Python str() of a value, the textual representation installed by
the coercion. -/
def pyStr : PyVal → List Char
  | .pstr s => s
  | .pint n => intToChars n
  | .pnone => "None".toList

/-- Is the value a Python str instance? -/
def isPyStr : PyVal → Bool
  | .pstr _ => true
  | _ => false

/-- One record handed to push_to_airtable: the salary field, singled
out by lines 114-115, and the remaining fields, which are passed
through untouched. -/
structure AirJob where
  salary : PyVal
  fields : List (List Char × List Char)
deriving DecidableEq

/-- Lines 114-115: when salary is present (not None) and not already a
string, it is replaced by its textual representation before
table.create is called. -/
def coerceSalary (j : AirJob) : AirJob :=
  if j.salary ≠ PyVal.pnone ∧ isPyStr j.salary = false then
    { j with salary := PyVal.pstr (pyStr j.salary) }
  else j

/-- Lines 110-118: the loop over job_posts_data; the result lists, in
order, the records as passed to table.create. -/
def push_to_airtable (job_posts_data : List AirJob) : List AirJob :=
  job_posts_data.map coerceSalary

/-- C9: every record that leaves the engine through the sink-push
carries its salary as text or as None: it arises from an input record
by the salary coercion, and whenever that input's salary was present
and not a string, the pushed salary is exactly the textual
representation of the input value. -/
theorem pushed_salary_is_text (jobs : List AirJob) (r : AirJob)
    (hr : r ∈ push_to_airtable jobs) :
    (r.salary = PyVal.pnone ∨ ∃ s, r.salary = PyVal.pstr s)
    ∧ ∃ j, j ∈ jobs ∧ r = coerceSalary j
      ∧ (j.salary ≠ PyVal.pnone → isPyStr j.salary = false →
          r.salary = PyVal.pstr (pyStr j.salary)) := by
  simp only [push_to_airtable, List.mem_map] at hr
  obtain ⟨j, hj, hje⟩ := hr
  constructor
  · rw [← hje]
    cases hs : j.salary with
    | pstr s =>
      right
      refine ⟨s, ?_⟩
      simp [coerceSalary, hs, isPyStr]
    | pint n =>
      right
      refine ⟨intToChars n, ?_⟩
      simp [coerceSalary, hs, isPyStr, pyStr]
    | pnone =>
      left
      simp [coerceSalary, hs]
  · refine ⟨j, hj, hje.symm, ?_⟩
    intro h1 h2
    rw [← hje]
    simp [coerceSalary, h1, h2]

/-- C9 witness: a record with a numeric salary of 120000 is pushed
with the string 120000. -/
theorem pushed_salary_is_text_witness :
    ((coerceSalary ⟨PyVal.pint 120000, []⟩).salary = PyVal.pnone
      ∨ ∃ s, (coerceSalary ⟨PyVal.pint 120000, []⟩).salary = PyVal.pstr s)
    ∧ ∃ j, j ∈ [AirJob.mk (PyVal.pint 120000) []]
      ∧ coerceSalary ⟨PyVal.pint 120000, []⟩ = coerceSalary j
      ∧ (j.salary ≠ PyVal.pnone → isPyStr j.salary = false →
          (coerceSalary ⟨PyVal.pint 120000, []⟩).salary = PyVal.pstr (pyStr j.salary)) :=
  pushed_salary_is_text [⟨PyVal.pint 120000, []⟩] (coerceSalary ⟨PyVal.pint 120000, []⟩)
    (by simp [push_to_airtable])
